import Mathlib

/-!
# Verification of the cf_ai_incident_response core

Shallow embedding of the incident-response Worker:
* data model from `src/types.ts`,
* the `IncidentConversation` Durable Object from `src/incident-conversation.ts`
  (storage modelled as a record of optional keys, time passed explicitly,
  the inference call modelled as an `Option String` input: `none` = the call threw),
* the Worker route `handleNewIncident` from `src/worker.ts`,
* the `IncidentResponseWorkflow.run` step sequence from `src/incident-workflow.ts`
  as a trace of effects,
* `generateJSONReport` from `src/report-generator.ts`.

JavaScript truthiness (`x || d`, `if (x)`) is modelled explicitly: the empty
string and `0` count as falsy, an empty array counts as truthy.
-/

namespace IncidentResponse

/-- `status` field values, from `src/types.ts` (`IncidentData.status`). -/
inductive Status where
  | investigating
  | identified
  | mitigating
  | resolved
  | monitoring
deriving DecidableEq, Repr

/-- `severity` field values, from `src/types.ts` (`IncidentData.severity`). -/
inductive Severity where
  | critical
  | high
  | medium
  | low
deriving DecidableEq, Repr

/-- Chat roles, from `src/types.ts` (`Message.role`). -/
inductive Role where
  | system
  | user
  | assistant
deriving DecidableEq, Repr

/-- A chat message, from `src/types.ts` (`Message`); `timestamp` is optional there. -/
structure Message where
  role : Role
  content : String
  timestamp : Option Nat
deriving DecidableEq, Repr

/-- Timeline event kinds, from `src/types.ts` (`TimelineEvent.type`). -/
inductive EventType where
  | detection
  | analysis
  | action
  | update
  | resolution
deriving DecidableEq, Repr

/-- A timeline event, from `src/types.ts` (`TimelineEvent`).  The `data` payload
(`any` in the source) is modelled as an opaque optional string. -/
structure TimelineEvent where
  timestamp : Nat
  type : EventType
  description : String
  data : Option String
deriving DecidableEq, Repr

/-- The incident record, from `src/types.ts` (`IncidentData`). -/
structure IncidentData where
  incidentId : String
  status : Status
  severity : Severity
  title : String
  description : String
  affectedSystems : List String
  startTime : Nat
  endTime : Option Nat
  rootCause : Option String
  remediationSteps : Option (List String)
  timeline : List TimelineEvent
deriving DecidableEq, Repr

/-- The Durable Object storage of one incident: one optional slot per key the
source ever passes to `state.storage.put`/`get` in `src/incident-conversation.ts`.
`none` models a key that was never written. -/
structure Storage where
  incidentId : Option String := none
  status : Option Status := none
  severity : Option Severity := none
  title : Option String := none
  description : Option String := none
  affectedSystems : Option (List String) := none
  startTime : Option Nat := none
  endTime : Option Nat := none
  rootCause : Option String := none
  remediationSteps : Option (List String) := none
  timeline : Option (List TimelineEvent) := none
  history : Option (List Message) := none
  lastActivity : Option Nat := none
deriving DecidableEq, Repr

/-- Storage of an incident id that was never created/initialized: no key present. -/
def emptyStorage : Storage := {}

/-- JavaScript `v || d` for a string slot: `undefined` and the empty string are falsy. -/
def jsOrStr (v : Option String) (d : String) : String :=
  match v with
  | some s => if s = "" then d else s
  | none => d

/-- JavaScript `v || d` for a number slot: `undefined` and `0` are falsy. -/
def jsOrNat (v : Option Nat) (d : Nat) : Nat :=
  match v with
  | some n => if n = 0 then d else n
  | none => d

/-- JavaScript truthiness of an optional string (`if (x)`): present and non-empty. -/
def jsTruthyStr (v : Option String) : Bool :=
  match v with
  | some s => s ≠ ""
  | none => false

/-- Substring occurrence on character lists (JavaScript `String.prototype.includes`). -/
def listHasSub (pat : List Char) : List Char → Bool
  | [] => pat.isEmpty
  | c :: rest => pat.isPrefixOf (c :: rest) || listHasSub pat rest

/-- JavaScript `s.includes(pat)`. -/
def jsIncludes (s pat : String) : Bool :=
  listHasSub pat.toList s.toList

/-- The string value of a status, as stored in the Durable Object (`src/types.ts`). -/
def statusStr : Status → String
  | Status.investigating => "investigating"
  | Status.identified => "identified"
  | Status.mitigating => "mitigating"
  | Status.resolved => "resolved"
  | Status.monitoring => "monitoring"

/-- The string value of a severity, as stored in the Durable Object (`src/types.ts`). -/
def severityStr : Severity → String
  | Severity.critical => "critical"
  | Severity.high => "high"
  | Severity.medium => "medium"
  | Severity.low => "low"

/-- The fixed persona block `SYSTEM_PROMPT` from `src/types.ts`. -/
def SYSTEM_PROMPT : String :=
  "You are an expert AI incident response assistant specialized in diagnosing and resolving system outages and performance issues.\n\nYour role is to help engineers:\n1. IDENTIFY: Quickly determine what failed or is failing\n2. IMPACT: Assess what systems and users are affected\n3. ROOT CAUSE: Determine why the failure occurred\n4. REMEDIATION: Provide clear, actionable steps to fix the issue\n5. PREVENTION: Suggest measures to prevent future occurrences\n\nGuidelines:\n- Be concise and actionable - engineers need quick answers during incidents\n- Prioritize the most likely causes first\n- Provide specific commands, configurations, or code changes when possible\n- Ask clarifying questions only if absolutely necessary for accurate diagnosis\n- Consider common patterns: traffic spikes, deployment issues, resource exhaustion, network problems, dependency failures\n- Always think about blast radius and safe rollback options\n- Format responses with clear headers and bullet points for easy scanning\n\nRemember: Speed and accuracy are critical during incidents. Every second counts."

/-- `getIncidentDataFromStorage` (`src/incident-conversation.ts` lines 274-288):
every record field is read with a JavaScript `|| default` (strings: empty string
falls back too; `startTime` falls back to `Date.now()`, here the explicit `now`);
`endTime`, `rootCause`, `remediationSteps` are read without a default.  The
stored `status`/`severity` values are non-empty enum strings, so plain `getD`
is the faithful reading for them. -/
def getIncidentDataFromStorage (st : Storage) (now : Nat) : IncidentData :=
  { incidentId := jsOrStr st.incidentId "unknown"
    status := st.status.getD Status.investigating
    severity := st.severity.getD Severity.medium
    title := jsOrStr st.title "Untitled Incident"
    description := jsOrStr st.description ""
    affectedSystems := st.affectedSystems.getD []
    startTime := jsOrNat st.startTime now
    endTime := st.endTime
    rootCause := st.rootCause
    remediationSteps := st.remediationSteps
    timeline := st.timeline.getD [] }

/-- `addTimelineEvent` (`src/incident-conversation.ts` lines 293-297):
read the timeline (default `[]`), push the event, write it back. -/
def addTimelineEvent (st : Storage) (event : TimelineEvent) : Storage :=
  { st with timeline := some (st.timeline.getD [] ++ [event]) }

/-- `buildContextPrompt` (`src/incident-conversation.ts` lines 242-269).
The source reads `Date.now()` for the incident-duration line; that read is the
explicit `now` argument here. -/
def buildContextPrompt (incidentData : IncidentData) (now : Nat) : String :=
  let contextPrompt := SYSTEM_PROMPT
  let contextPrompt := contextPrompt ++ "\n\nCURRENT INCIDENT CONTEXT:"
  let contextPrompt := contextPrompt ++ "\n- Incident ID: " ++ incidentData.incidentId
  let contextPrompt := contextPrompt ++ "\n- Title: " ++ incidentData.title
  let contextPrompt := contextPrompt ++ "\n- Status: " ++ statusStr incidentData.status
  let contextPrompt := contextPrompt ++ "\n- Severity: " ++ severityStr incidentData.severity
  let contextPrompt := contextPrompt ++ "\n- Description: " ++ incidentData.description
  let contextPrompt :=
    if incidentData.affectedSystems.length > 0 then
      contextPrompt ++ "\n- Affected Systems: " ++ String.intercalate ", " incidentData.affectedSystems
    else contextPrompt
  let contextPrompt :=
    if jsTruthyStr incidentData.rootCause then
      contextPrompt ++ "\n- Known Root Cause: " ++ incidentData.rootCause.getD ""
    else contextPrompt
  let contextPrompt :=
    match incidentData.remediationSteps with
    | some steps =>
        if steps.length > 0 then
          contextPrompt ++ "\n- Remediation Steps: " ++ String.intercalate "; " steps
        else contextPrompt
    | none => contextPrompt
  let durationMinutes := (now - incidentData.startTime) / 60000
  contextPrompt ++ "\n- Incident Duration: " ++ toString durationMinutes ++ " minutes"

/-- JavaScript `s.toLowerCase()` (ASCII range, which covers every phrase the
classifier tests), written as an explicit character map so that it evaluates. -/
def jsToLowerCase (s : String) : String :=
  String.mk (s.toList.map Char.toLower)

/-- The root-cause-indicating condition of `analyzeAndUpdateStatus`
(`src/incident-conversation.ts` line 309), over the lower-cased response. -/
def hasRootCausePhrase (lowerResponse : String) : Bool :=
  jsIncludes lowerResponse "root cause" || jsIncludes lowerResponse "identified the issue"

/-- The remediation-indicating condition of `analyzeAndUpdateStatus`
(`src/incident-conversation.ts` line 320), over the lower-cased response. -/
def hasRemediationPhrase (lowerResponse : String) : Bool :=
  jsIncludes lowerResponse "to fix" || jsIncludes lowerResponse "remediation"
    || jsIncludes lowerResponse "steps to resolve"

/-- The `analysis` event appended when the classifier advances to `identified`
(`src/incident-conversation.ts` lines 311-315). -/
def aiAnalysisEvent (now : Nat) : TimelineEvent :=
  { timestamp := now, type := EventType.analysis,
    description := "Root cause identified by AI", data := none }

/-- The `action` event appended when the classifier advances to `mitigating`
(`src/incident-conversation.ts` lines 322-326). -/
def aiActionEvent (now : Nat) : TimelineEvent :=
  { timestamp := now, type := EventType.action,
    description := "Remediation in progress", data := none }

/-- `analyzeAndUpdateStatus` (`src/incident-conversation.ts` lines 302-329):
`currentStatus` is read once, before either branch writes. -/
def analyzeAndUpdateStatus (st : Storage) (aiResponse : String) (now : Nat) : Storage :=
  let lowerResponse := jsToLowerCase aiResponse
  let currentStatus := st.status
  let st1 :=
    if currentStatus = some Status.investigating then
      if hasRootCausePhrase lowerResponse then
        addTimelineEvent { st with status := some Status.identified } (aiAnalysisEvent now)
      else st
    else st
  if currentStatus = some Status.identified ∨ currentStatus = some Status.investigating then
    if hasRemediationPhrase lowerResponse then
      addTimelineEvent { st1 with status := some Status.mitigating } (aiActionEvent now)
    else st1
  else st1

/-- `handleMessage` (`src/incident-conversation.ts` lines 99-166).  The inference
call `env.AI.run` is the `ai` argument: `some text` is a successful response,
`none` a thrown `ServiceError`.  In the source the first `storage.put` occurs
only after the inference call returns (line 144), so a thrown call leaves the
storage exactly as it was; the handler's exception surfaces as a 500 response
from the Durable Object `fetch` wrapper, modelled as result `none`. -/
def handleMessage (st : Storage) (message : String) (now : Nat) (ai : Option String) :
    Storage × Option String :=
  let history := st.history.getD []
  let incidentData := getIncidentDataFromStorage st now
  let userMessage : Message := { role := Role.user, content := message, timestamp := some now }
  let history := history ++ [userMessage]
  let _contextPrompt := buildContextPrompt incidentData now
  match ai with
  | none => (st, none)
  | some responseText =>
    let assistantMessage : Message :=
      { role := Role.assistant, content := responseText, timestamp := some now }
    let history := history ++ [assistantMessage]
    let st := { st with history := some history, lastActivity := some now }
    let st := addTimelineEvent st
      { timestamp := now, type := EventType.update, description := "AI analysis performed",
        data := some ("userMessage: " ++ message ++ "; aiResponse: " ++ responseText) }
    let st := analyzeAndUpdateStatus st responseText now
    (st, some responseText)

/-- The body of an `/update-status` request (`src/incident-conversation.ts` lines
194-198): each field optional. -/
structure UpdateStatusRequest where
  status : Option Status := none
  rootCause : Option String := none
  remediationSteps : Option (List String) := none
deriving DecidableEq, Repr

/-- `updateStatus` (`src/incident-conversation.ts` lines 193-237).  JavaScript
truthiness guards each field (`if (rootCause)`: an empty string is skipped;
an empty `remediationSteps` array is truthy and is stored).  The final
`if (status === 'resolved')` stamps `endTime` with `Date.now()` unconditionally,
overwriting any previous value. -/
def updateStatus (st : Storage) (req : UpdateStatusRequest) (now : Nat) : Storage :=
  let st :=
    match req.status with
    | some s =>
        addTimelineEvent { st with status := some s }
          { timestamp := now, type := EventType.update,
            description := "Status changed to: " ++ statusStr s, data := none }
    | none => st
  let st :=
    if jsTruthyStr req.rootCause then
      addTimelineEvent { st with rootCause := req.rootCause }
        { timestamp := now, type := EventType.analysis,
          description := "Root cause identified", data := req.rootCause }
    else st
  let st :=
    match req.remediationSteps with
    | some steps =>
        addTimelineEvent { st with remediationSteps := some steps }
          { timestamp := now, type := EventType.action,
            description := "Remediation plan created", data := none }
    | none => st
  if req.status = some Status.resolved then { st with endTime := some now } else st

/-- The body of an `/init` request (`Partial<IncidentData>` as sent by
`handleNewIncident`, `src/incident-conversation.ts` line 62). -/
structure InitPayload where
  incidentId : Option String := none
  status : Option Status := none
  severity : Option Severity := none
  title : Option String := none
  description : Option String := none
  affectedSystems : Option (List String) := none
  startTime : Option Nat := none
deriving DecidableEq, Repr

/-- `initializeIncident` (`src/incident-conversation.ts` lines 61-94): stores the
metadata (status defaults to `investigating`, `affectedSystems` to `[]`,
`startTime` to `Date.now()`), resets `history` to `[]` and `timeline` to a single
`detection` event.  It never touches `endTime`, `rootCause`, `remediationSteps`. -/
def initializeIncident (st : Storage) (p : InitPayload) (now : Nat) : Storage :=
  { st with
    incidentId := p.incidentId
    status := some (p.status.getD Status.investigating)
    severity := p.severity
    title := p.title
    description := p.description
    affectedSystems := some (p.affectedSystems.getD [])
    startTime := some (jsOrNat p.startTime now)
    history := some []
    timeline := some [{ timestamp := now, type := EventType.detection,
                        description := "Incident detected and initialized",
                        data := some "incidentData" }] }

/-- `getIncidentState` (`src/incident-conversation.ts` lines 182-188): always a
200 response carrying `getIncidentDataFromStorage` — no existence check. -/
def getIncidentState (st : Storage) (now : Nat) : IncidentData :=
  getIncidentDataFromStorage st now

/-- The body of a `POST /api/incident` request (`src/worker.ts` lines 129-136). -/
structure NewIncidentRequest where
  title : Option String := none
  description : Option String := none
  severity : Option Severity := none
  logs : Option String := none
  metrics : Option String := none
  affectedSystems : Option (List String) := none
deriving DecidableEq, Repr

/-- The JSON body `handleNewIncident` responds with. -/
inductive NewIncidentBody where
  | validationError (error : String)
  | created (incidentId : String) (status : String) (message : String)
deriving DecidableEq, Repr

/-- An outward effect of a Worker route handler: a sub-request to the incident's
Durable Object, or a creation of a workflow instance
(`env.INCIDENT_WORKFLOW.create`). -/
inductive WorkerEffect where
  | doInit (incidentId : String) (payload : InitPayload)
  | workflowCreate (incidentId : String) (description : String) (severity : Severity)
deriving DecidableEq, Repr

/-- Whether an effect is a workflow creation. -/
def WorkerEffect.isWorkflowCreate : WorkerEffect → Bool
  | WorkerEffect.workflowCreate _ _ _ => true
  | _ => false

/-- `handleNewIncident` (`src/worker.ts` lines 128-182): validates
`description`/`severity`, mints `INC-<now>-<rand>`, sends `/init` to the Durable
Object, and returns 201 with the message
"Incident created and analysis workflow triggered".  The workflow trigger
itself is absent from the source (lines 167-169 are only a comment:
"In production, you would use: await env.INCIDENT_WORKFLOW.create(...)"),
so the effect list never contains a `workflowCreate`. -/
def handleNewIncident (req : NewIncidentRequest) (now : Nat) (rand : String) :
    (Nat × NewIncidentBody) × List WorkerEffect :=
  if !jsTruthyStr req.description || req.severity = none then
    ((400, NewIncidentBody.validationError "Description and severity are required"), [])
  else
    let incidentId := "INC-" ++ toString now ++ "-" ++ rand
    let payload : InitPayload :=
      { incidentId := some incidentId
        title := some (jsOrStr req.title ("Incident " ++ incidentId))
        description := req.description
        severity := req.severity
        affectedSystems := some (req.affectedSystems.getD [])
        startTime := some now }
    ((201, NewIncidentBody.created incidentId "created"
        "Incident created and analysis workflow triggered"),
      [WorkerEffect.doInit incidentId payload])

/-- The workflow parameters (`src/types.ts`, `WorkflowParams`). -/
structure WorkflowParams where
  incidentId : String
  logs : Option String := none
  metrics : Option String := none
  severity : Severity
  description : String
deriving DecidableEq, Repr

/-- One observable action of `IncidentResponseWorkflow.run`, in execution order:
an inference call (`step.do` wrapping `env.AI.run`), a `/message` post to the
incident's Durable Object, a `/update-status` post, or a durable
`step.sleep`. -/
inductive WorkflowAction where
  | aiCall (stepName : String) (response : String)
  | postMessage (stepName : String) (message : String)
  | updateStatusCall (stepName : String) (rootCause : String) (remediationSteps : List String)
  | sleep (stepName : String) (duration : String)
deriving DecidableEq, Repr

/-- Whether a line is matched by the `/^\d+\./` filter of the
`update-remediation-plan` step (`src/incident-workflow.ts` line 143), after
trimming: one or more digits followed by a dot, at the start. -/
def isNumberedLine (s : String) : Bool :=
  let cs := s.toList
  let ds := cs.takeWhile Char.isDigit
  !ds.isEmpty && (cs.drop ds.length).head? = some '.'

/-- The remediation-step extraction of `src/incident-workflow.ts` lines 141-144:
split on newlines, keep the lines whose trimmed form starts `<digits>.`, and
return those lines trimmed. -/
def parseRemediationSteps (remediationPlan : String) : List String :=
  ((remediationPlan.splitOn "\n").filter (fun line => isNumberedLine line.trim)).map
    (fun line => line.trim)

/-- The reminder text of the `verify-mitigation` step
(`src/incident-workflow.ts` line 223). -/
def verifyMitigationText : String :=
  "[Automated Check] 5 minutes have passed. Please verify that mitigation steps have been applied and are effective."

/-- `IncidentResponseWorkflow.run` (`src/incident-workflow.ts` lines 9-231) as
the ordered trace of its actions.  `ai` maps a step name to the inference
response of that step.  `statusAtDelay` is the incident's status at the moment
the 5-minute sleep elapses (the incident may have been independently resolved
meanwhile); the source never consults the incident's status — the final block
(lines 208-228) is guarded only on `severity === 'critical'` — so the argument
is deliberately unused. -/
def workflowRun (params : WorkflowParams) (ai : String → String)
    (statusAtDelay : Status) : List WorkflowAction :=
  let _ := statusAtDelay
  let initialAnalysis := ai "initial-analysis"
  let rootCauseAnalysis := ai "root-cause-analysis"
  let remediationPlan := ai "generate-remediation"
  let monitoringRecommendations := ai "monitoring-recommendations"
  [ WorkflowAction.aiCall "initial-analysis" initialAnalysis,
    WorkflowAction.postMessage "update-initial-analysis"
      ("Initial automated analysis completed:\n\n" ++ initialAnalysis),
    WorkflowAction.aiCall "root-cause-analysis" rootCauseAnalysis,
    WorkflowAction.aiCall "generate-remediation" remediationPlan,
    WorkflowAction.updateStatusCall "update-remediation-plan" rootCauseAnalysis
      (parseRemediationSteps remediationPlan),
    WorkflowAction.aiCall "monitoring-recommendations" monitoringRecommendations ]
  ++ (if params.severity = Severity.critical then
        [ WorkflowAction.sleep "wait-for-mitigation" "5 minutes",
          WorkflowAction.postMessage "verify-mitigation" verifyMitigationText ]
      else [])

/-- The first six actions of `IncidentResponseWorkflow.run` — everything before
the conditional delayed-verification block (`src/incident-workflow.ts`
lines 13-206). -/
def workflowCore (params : WorkflowParams) (ai : String → String) : List WorkflowAction :=
  let initialAnalysis := ai "initial-analysis"
  let rootCauseAnalysis := ai "root-cause-analysis"
  let remediationPlan := ai "generate-remediation"
  let monitoringRecommendations := ai "monitoring-recommendations"
  let _ := params
  [ WorkflowAction.aiCall "initial-analysis" initialAnalysis,
    WorkflowAction.postMessage "update-initial-analysis"
      ("Initial automated analysis completed:\n\n" ++ initialAnalysis),
    WorkflowAction.aiCall "root-cause-analysis" rootCauseAnalysis,
    WorkflowAction.aiCall "generate-remediation" remediationPlan,
    WorkflowAction.updateStatusCall "update-remediation-plan" rootCauseAnalysis
      (parseRemediationSteps remediationPlan),
    WorkflowAction.aiCall "monitoring-recommendations" monitoringRecommendations ]

/-- Counts the delayed-verification posts in a workflow trace. -/
def countVerify (tr : List WorkflowAction) : Nat :=
  (tr.filter (fun a =>
    match a with
    | WorkflowAction.postMessage "verify-mitigation" _ => true
    | _ => false)).length

/-- Counts the sleeps in a workflow trace. -/
def countSleep (tr : List WorkflowAction) : Nat :=
  (tr.filter (fun a =>
    match a with
    | WorkflowAction.sleep _ _ => true
    | _ => false)).length

/-- JavaScript truthiness of an optional number (`if (x)`): present and non-zero. -/
def jsTruthyNat (v : Option Nat) : Bool :=
  match v with
  | some n => n ≠ 0
  | none => false

/-- Days-since-epoch to proleptic-Gregorian civil date `(year, month, day)`,
the date arithmetic ECMAScript `Date` performs for non-negative epochs
(era-based algorithm). -/
def civilFromDays (z : Nat) : Nat × Nat × Nat :=
  let z := z + 719468
  let era := z / 146097
  let doe := z % 146097
  let yoe := (doe - doe / 1460 + doe / 36524 - doe / 146097) / 365
  let y := yoe + era * 400
  let doy := doe - (365 * yoe + yoe / 4 - yoe / 100)
  let mp := (5 * doy + 2) / 153
  let d := doy - (153 * mp + 2) / 5 + 1
  let m := if mp < 10 then mp + 3 else mp - 9
  (if m ≤ 2 then y + 1 else y, m, d)

/-- Left-pads a number with zeros to the given width. -/
def padNum (width n : Nat) : String :=
  let s := toString n
  String.mk (List.replicate (width - s.length) '0') ++ s

/-- JavaScript `new Date(t).toISOString()` for a non-negative epoch-milliseconds
value: `YYYY-MM-DDTHH:MM:SS.mmmZ` in UTC. -/
def toISOString (t : Nat) : String :=
  let ms := t % 1000
  let secs := t / 1000
  let s := secs % 60
  let mins := secs / 60
  let mi := mins % 60
  let hours := mins / 60
  let h := hours % 24
  let days := hours / 24
  let ymd := civilFromDays days
  padNum 4 ymd.1 ++ "-" ++ padNum 2 ymd.2.1 ++ "-" ++ padNum 2 ymd.2.2 ++ "T"
    ++ padNum 2 h ++ ":" ++ padNum 2 mi ++ ":" ++ padNum 2 s ++ "." ++ padNum 3 ms ++ "Z"

/-- The `metadata` object of the JSON report (`src/report-generator.ts`
lines 263-268). -/
structure ReportMetadata where
  reportId : String
  generatedAt : String
  generator : String
  version : String
deriving DecidableEq, Repr

/-- The `incident` object of the JSON report (`src/report-generator.ts`
lines 269-281).  `endTime` and `rootCause` are `Option`s whose `none`
serializes as JSON `null`; `remediationSteps` is a plain list (the source uses
`|| []`). -/
structure ReportIncident where
  id : String
  title : String
  severity : Severity
  status : Status
  description : String
  affectedSystems : List String
  startTime : String
  endTime : Option String
  durationMs : Int
  rootCause : Option String
  remediationSteps : List String
deriving DecidableEq, Repr

/-- One entry of the `conversation` array of the JSON report
(`src/report-generator.ts` lines 283-287); `none` timestamps serialize as
JSON `null`. -/
structure ConversationEntry where
  role : Role
  content : String
  timestamp : Option String
deriving DecidableEq, Repr

/-- The JSON report object (`src/report-generator.ts` lines 262-288).  Note the
`timeline` array carries the stored `TimelineEvent`s verbatim — their numeric
timestamps are not converted to ISO-8601. -/
structure JSONReport where
  metadata : ReportMetadata
  incident : ReportIncident
  timeline : List TimelineEvent
  conversation : List ConversationEntry
deriving DecidableEq, Repr

/-- `generateJSONReport` (`src/report-generator.ts` lines 254-291).  Pure apart
from two `Date.now()` reads (report id, `generatedAt`, and the duration of a
still-open incident), passed here as `now`; it makes no inference call.
JavaScript truthiness governs the optional fields: `incidentData.endTime ? ... : null`,
`incidentData.rootCause || null`, `incidentData.remediationSteps || []`,
`msg.timestamp ? ... : null`. -/
def generateJSONReport (incidentData : IncidentData) (conversationHistory : List Message)
    (now : Nat) : JSONReport :=
  let duration : Int :=
    if jsTruthyNat incidentData.endTime then
      (incidentData.endTime.getD 0 : Int) - (incidentData.startTime : Int)
    else (now : Int) - (incidentData.startTime : Int)
  { metadata :=
      { reportId := "REPORT-" ++ incidentData.incidentId ++ "-" ++ toString now
        generatedAt := toISOString now
        generator := "CF AI Incident Response System"
        version := "1.0.0" }
    incident :=
      { id := incidentData.incidentId
        title := incidentData.title
        severity := incidentData.severity
        status := incidentData.status
        description := incidentData.description
        affectedSystems := incidentData.affectedSystems
        startTime := toISOString incidentData.startTime
        endTime :=
          if jsTruthyNat incidentData.endTime then
            some (toISOString (incidentData.endTime.getD 0))
          else none
        durationMs := duration
        rootCause := if jsTruthyStr incidentData.rootCause then incidentData.rootCause else none
        remediationSteps := incidentData.remediationSteps.getD [] }
    timeline := incidentData.timeline
    conversation :=
      conversationHistory.map (fun msg =>
        { role := msg.role
          content := msg.content
          timestamp :=
            if jsTruthyNat msg.timestamp then some (toISOString (msg.timestamp.getD 0))
            else none }) }

/-- A JSON value, the shape `JSON.stringify` serializes
(`src/report-generator.ts` line 290). -/
inductive JValue where
  | jnull
  | jstr (s : String)
  | jnum (n : Int)
  | jarr (elems : List JValue)
  | jobj (fields : List (String × JValue))
deriving Repr

/-- Key lookup in a JSON object value. -/
def jGet (v : JValue) (key : String) : Option JValue :=
  match v with
  | JValue.jobj fields => (fields.find? (fun f => f.1 = key)).map (fun f => f.2)
  | _ => none

/-- The string value of an event type, as serialized (`src/types.ts`). -/
def eventTypeStr : EventType → String
  | EventType.detection => "detection"
  | EventType.analysis => "analysis"
  | EventType.action => "action"
  | EventType.update => "update"
  | EventType.resolution => "resolution"

/-- The string value of a role, as serialized (`src/types.ts`). -/
def roleStr : Role → String
  | Role.system => "system"
  | Role.user => "user"
  | Role.assistant => "assistant"

/-- `JSON.stringify` of a stored timeline event: the numeric timestamp is
serialized as a JSON number (no ISO conversion anywhere in
`generateJSONReport`); an absent `data` key is omitted. -/
def jsonOfTimelineEvent (e : TimelineEvent) : JValue :=
  JValue.jobj
    ([("timestamp", JValue.jnum e.timestamp),
      ("type", JValue.jstr (eventTypeStr e.type)),
      ("description", JValue.jstr e.description)]
      ++ (match e.data with
          | some s => [("data", JValue.jstr s)]
          | none => []))

/-- `JSON.stringify` of the report object built by `generateJSONReport`
(`src/report-generator.ts` lines 262-290): `none` in the `Option` slots
serializes as JSON `null`; `remediationSteps` — a plain array after the
source's `|| []` — serializes as a JSON array, never `null`. -/
def jsonOfReport (r : JSONReport) : JValue :=
  JValue.jobj
    [("metadata", JValue.jobj
        [("reportId", JValue.jstr r.metadata.reportId),
         ("generatedAt", JValue.jstr r.metadata.generatedAt),
         ("generator", JValue.jstr r.metadata.generator),
         ("version", JValue.jstr r.metadata.version)]),
     ("incident", JValue.jobj
        [("id", JValue.jstr r.incident.id),
         ("title", JValue.jstr r.incident.title),
         ("severity", JValue.jstr (severityStr r.incident.severity)),
         ("status", JValue.jstr (statusStr r.incident.status)),
         ("description", JValue.jstr r.incident.description),
         ("affectedSystems", JValue.jarr (r.incident.affectedSystems.map JValue.jstr)),
         ("startTime", JValue.jstr r.incident.startTime),
         ("endTime", match r.incident.endTime with
                     | some s => JValue.jstr s
                     | none => JValue.jnull),
         ("durationMs", JValue.jnum r.incident.durationMs),
         ("rootCause", match r.incident.rootCause with
                       | some s => JValue.jstr s
                       | none => JValue.jnull),
         ("remediationSteps", JValue.jarr (r.incident.remediationSteps.map JValue.jstr))]),
     ("timeline", JValue.jarr (r.timeline.map jsonOfTimelineEvent)),
     ("conversation", JValue.jarr (r.conversation.map (fun ce =>
        JValue.jobj
          [("role", JValue.jstr (roleStr ce.role)),
           ("content", JValue.jstr ce.content),
           ("timestamp", match ce.timestamp with
                         | some s => JValue.jstr s
                         | none => JValue.jnull)])))]

/-- Position of a status along the forward chain
investigating → identified → mitigating → resolved (monitoring is the explicit
side state). -/
def statusRank : Status → Nat
  | Status.investigating => 0
  | Status.identified => 1
  | Status.mitigating => 2
  | Status.resolved => 3
  | Status.monitoring => 4

/-- The prefix of the context prompt that precedes the optional root-cause line:
persona block, identity, title, status, severity, description and the
affected-systems line (`src/incident-conversation.ts` lines 243-254). -/
def ctxPre (d : IncidentData) : String :=
  SYSTEM_PROMPT ++ "\n\nCURRENT INCIDENT CONTEXT:"
    ++ "\n- Incident ID: " ++ d.incidentId
    ++ "\n- Title: " ++ d.title
    ++ "\n- Status: " ++ statusStr d.status
    ++ "\n- Severity: " ++ severityStr d.severity
    ++ "\n- Description: " ++ d.description
    ++ (if d.affectedSystems.length > 0 then
          "\n- Affected Systems: " ++ String.intercalate ", " d.affectedSystems
        else "")

/-- The suffix of the context prompt that follows the optional root-cause line:
the remediation-steps line and the duration line
(`src/incident-conversation.ts` lines 260-266).  Independent of `rootCause`. -/
def ctxPost (d : IncidentData) (now : Nat) : String :=
  (match d.remediationSteps with
   | some steps =>
       if steps.length > 0 then "\n- Remediation Steps: " ++ String.intercalate "; " steps
       else ""
   | none => "")
    ++ "\n- Incident Duration: " ++ toString ((now - d.startTime) / 60000) ++ " minutes"

/-- Fixture: a storage with only `startTime` present. -/
def c3Start : Storage := { startTime := some 50 }

/-- Fixture: a valid `POST /api/incident` body with severity `high`
(the scenario of §8 of the spec). -/
def c2Request : NewIncidentRequest :=
  { description := some "Users reporting 504 errors", severity := some Severity.high }

/-- Fixture: the fabricated default record of an uninitialized incident read at
time 0. -/
def c7Record : IncidentData := getIncidentDataFromStorage emptyStorage 0

/-- Fixture: critical-severity workflow parameters. -/
def c9Params : WorkflowParams :=
  { incidentId := "INC-1", severity := Severity.critical, description := "Database down" }

/-- Fixture: a deterministic inference oracle for the workflow trace. -/
def c9Oracle : String → String := fun stepName => "output of " ++ stepName

/-- Fixture: an incident record with `endTime`, `rootCause` and
`remediationSteps` all unset and one timeline event. -/
def c4Incident : IncidentData :=
  { incidentId := "INC-1"
    status := Status.investigating
    severity := Severity.high
    title := "API Gateway Timeout"
    description := "Users reporting 504 errors"
    affectedSystems := []
    startTime := 1700000000000
    endTime := none
    rootCause := none
    remediationSteps := none
    timeline := [{ timestamp := 1700000000000, type := EventType.detection,
                   description := "Incident detected and initialized", data := none }] }

/-! ## Theorems -/

/-- **C10** (confirmed): reading the incident state for an id that was never
initialized does not fail; it returns the fabricated default record — id
"unknown", status `investigating`, severity `medium`, title
"Untitled Incident", empty description, empty affected systems, `startTime`
equal to the read time, empty timeline — shaped exactly like a real record. -/
theorem c10_uninitialized_read_returns_default (now : Nat) :
    getIncidentState emptyStorage now =
      { incidentId := "unknown", status := Status.investigating,
        severity := Severity.medium, title := "Untitled Incident", description := "",
        affectedSystems := [], startTime := now, endTime := none, rootCause := none,
        remediationSteps := none, timeline := [] } := rfl

/-- **C6** (confirmed): when the inference call fails (`ai = none`, a thrown
`ServiceError`), `handleMessage` surfaces the failure and the durable storage is
exactly as before the call — no user message, no assistant message, no timeline
event, no `lastActivity` write: in the source the first `storage.put` of the
turn happens only after `env.AI.run` returns. -/
theorem c6_failed_inference_leaves_storage_unchanged
    (st : Storage) (message : String) (now : Nat) :
    handleMessage st message now none = (st, none) := rfl

/-- **C1** counterexample: `postMessage` on a never-initialized incident id does
not fail with NotFound — with a successful inference call it returns the
assistant text and mutates storage (history gains the user and assistant
messages). -/
theorem c1_nonexistent_id_counterexample :
    (handleMessage emptyStorage "What happened?" 1000 (some "Investigating the alert now.")).2
        = some "Investigating the alert now."
    ∧ (handleMessage emptyStorage "What happened?" 1000 (some "Investigating the alert now.")).1.history
        = some [{ role := Role.user, content := "What happened?", timestamp := some 1000 },
                { role := Role.assistant, content := "Investigating the alert now.",
                  timestamp := some 1000 }]
    ∧ (handleMessage emptyStorage "What happened?" 1000 (some "Investigating the alert now.")).1
        ≠ emptyStorage := by
  decide

/-- **C1** (corrected): `handleMessage` on a never-initialized incident id does
not check existence; it proceeds against the fabricated default record and, when
inference succeeds, appends the user and assistant messages to history, appends
one `update` timeline event, and stamps `lastActivity`. -/
theorem c1_amended_postMessage_fabricates_default
    (message : String) (now : Nat) (responseText : String) :
    handleMessage emptyStorage message now (some responseText) =
      ({ emptyStorage with
          history := some
            [{ role := Role.user, content := message, timestamp := some now },
             { role := Role.assistant, content := responseText, timestamp := some now }],
          lastActivity := some now,
          timeline := some
            [{ timestamp := now, type := EventType.update,
               description := "AI analysis performed",
               data := some ("userMessage: " ++ message ++ "; aiResponse: " ++ responseText) }] },
        some responseText) := rfl

/-- **C3** counterexample: a second `updateStatus {status := resolved}` call does
not leave `endTime` unchanged — the source stamps `endTime := Date.now()`
unconditionally whenever the requested status is `resolved`, overwriting the
value set by the first call. -/
theorem c3_second_resolve_overwrites_endTime :
    (updateStatus c3Start { status := some Status.resolved } 100).endTime = some 100
    ∧ (updateStatus (updateStatus c3Start { status := some Status.resolved } 100)
        { status := some Status.resolved } 200).endTime = some 200
    ∧ ¬ ((updateStatus (updateStatus c3Start { status := some Status.resolved } 100)
            { status := some Status.resolved } 200).endTime
          = (updateStatus c3Start { status := some Status.resolved } 100).endTime) := by
  decide

/-- **C3** (corrected): every `updateStatus` call whose requested status is
`resolved` stamps `endTime` with the call time — on a record with `endTime`
unset this sets `endTime` (≥ `startTime` whenever the call time is), and a
repeated call overwrites it with the later call time rather than leaving it
unchanged. -/
theorem c3_amended_resolved_stamps_now
    (st : Storage) (req : UpdateStatusRequest) (now : Nat)
    (h : req.status = some Status.resolved) :
    (updateStatus st req now).endTime = some now := by
  unfold updateStatus
  rw [h]
  rfl

/-- Witness for **C3**: the amended theorem applied at a concrete input. -/
theorem c3_amended_resolved_stamps_now_witness :
    (updateStatus emptyStorage { status := some Status.resolved } 7).endTime = some 7 :=
  c3_amended_resolved_stamps_now emptyStorage { status := some Status.resolved } 7 rfl

/-- Helper: the classifier is a no-op when the stored status is `mitigating`,
`resolved`, `monitoring`, or missing. -/
lemma analyzeAndUpdateStatus_noop (st : Storage) (resp : String) (now : Nat)
    (h : st.status = some Status.mitigating ∨ st.status = some Status.resolved
      ∨ st.status = some Status.monitoring ∨ st.status = none) :
    analyzeAndUpdateStatus st resp now = st := by
  rcases h with h | h | h | h <;> simp [analyzeAndUpdateStatus, h]

/-- Helper: the classifier never lowers the rank of the stored status. -/
lemma analyzeAndUpdateStatus_status_mono (st : Storage) (resp : String) (now : Nat)
    (s0 s1 : Status) (h0 : st.status = some s0)
    (h1 : (analyzeAndUpdateStatus st resp now).status = some s1) :
    statusRank s0 ≤ statusRank s1 := by
  cases s0 with
  | investigating => exact Nat.zero_le _
  | identified =>
      unfold analyzeAndUpdateStatus at h1
      by_cases hrm : hasRemediationPhrase (jsToLowerCase resp) <;>
        simp [h0, hrm, addTimelineEvent] at h1 <;> subst h1 <;> decide
  | mitigating =>
      rw [analyzeAndUpdateStatus_noop st resp now (Or.inl h0), h0] at h1
      injection h1 with h1
      subst h1
      exact Nat.le_refl _
  | resolved =>
      rw [analyzeAndUpdateStatus_noop st resp now (Or.inr (Or.inl h0)), h0] at h1
      injection h1 with h1
      subst h1
      exact Nat.le_refl _
  | monitoring =>
      rw [analyzeAndUpdateStatus_noop st resp now (Or.inr (Or.inr (Or.inl h0))), h0] at h1
      injection h1 with h1
      subst h1
      exact Nat.le_refl _

/-- **C5** (confirmed): the status-classification heuristic is forward-only
along investigating → identified → mitigating.  From `investigating`, a
root-cause phrase advances to `identified` with one `analysis` event (and, if a
remediation phrase is also present in the same call, further to `mitigating`
with one `action` event — the two rules compose, each firing once); from
`investigating` or `identified`, a remediation phrase advances to `mitigating`
with one `action` event; without a triggering phrase nothing changes; and when
the status is already `mitigating`, `resolved` or `monitoring` the heuristic
changes nothing and appends no event. -/
theorem c5_classifier_forward_only (st : Storage) (aiResponse : String) (now : Nat) :
    ((st.status = some Status.mitigating ∨ st.status = some Status.resolved
        ∨ st.status = some Status.monitoring) →
      analyzeAndUpdateStatus st aiResponse now = st)
    ∧ (st.status = some Status.investigating →
        hasRootCausePhrase (jsToLowerCase aiResponse) = true →
        hasRemediationPhrase (jsToLowerCase aiResponse) = false →
        (analyzeAndUpdateStatus st aiResponse now).status = some Status.identified
        ∧ (analyzeAndUpdateStatus st aiResponse now).timeline
            = some (st.timeline.getD [] ++ [aiAnalysisEvent now]))
    ∧ (st.status = some Status.investigating →
        hasRootCausePhrase (jsToLowerCase aiResponse) = true →
        hasRemediationPhrase (jsToLowerCase aiResponse) = true →
        (analyzeAndUpdateStatus st aiResponse now).status = some Status.mitigating
        ∧ (analyzeAndUpdateStatus st aiResponse now).timeline
            = some (st.timeline.getD [] ++ [aiAnalysisEvent now, aiActionEvent now]))
    ∧ (st.status = some Status.investigating →
        hasRootCausePhrase (jsToLowerCase aiResponse) = false →
        hasRemediationPhrase (jsToLowerCase aiResponse) = true →
        (analyzeAndUpdateStatus st aiResponse now).status = some Status.mitigating
        ∧ (analyzeAndUpdateStatus st aiResponse now).timeline
            = some (st.timeline.getD [] ++ [aiActionEvent now]))
    ∧ (st.status = some Status.investigating →
        hasRootCausePhrase (jsToLowerCase aiResponse) = false →
        hasRemediationPhrase (jsToLowerCase aiResponse) = false →
        analyzeAndUpdateStatus st aiResponse now = st)
    ∧ (st.status = some Status.identified →
        hasRemediationPhrase (jsToLowerCase aiResponse) = true →
        (analyzeAndUpdateStatus st aiResponse now).status = some Status.mitigating
        ∧ (analyzeAndUpdateStatus st aiResponse now).timeline
            = some (st.timeline.getD [] ++ [aiActionEvent now]))
    ∧ (st.status = some Status.identified →
        hasRemediationPhrase (jsToLowerCase aiResponse) = false →
        analyzeAndUpdateStatus st aiResponse now = st)
    ∧ (∀ s0 s1, st.status = some s0 →
        (analyzeAndUpdateStatus st aiResponse now).status = some s1 →
        statusRank s0 ≤ statusRank s1) := by
  refine ⟨?_, ?_, ?_, ?_, ?_, ?_, ?_, ?_⟩
  · intro h
    exact analyzeAndUpdateStatus_noop st aiResponse now
      (by rcases h with h | h | h
          · exact Or.inl h
          · exact Or.inr (Or.inl h)
          · exact Or.inr (Or.inr (Or.inl h)))
  · intro h0 h2 h3
    simp [analyzeAndUpdateStatus, addTimelineEvent, h0, h2, h3]
  · intro h0 h2 h3
    simp [analyzeAndUpdateStatus, addTimelineEvent, h0, h2, h3]
  · intro h0 h2 h3
    simp [analyzeAndUpdateStatus, addTimelineEvent, h0, h2, h3]
  · intro h0 h2 h3
    simp [analyzeAndUpdateStatus, h0, h2, h3]
  · intro h0 h2
    simp [analyzeAndUpdateStatus, addTimelineEvent, h0, h2]
  · intro h0 h2
    simp [analyzeAndUpdateStatus, h0, h2]
  · intro s0 s1 h0 h1
    exact analyzeAndUpdateStatus_status_mono st aiResponse now s0 s1 h0 h1

/-- Witness for **C5**: the classifier applied to a concrete response carrying a
root-cause phrase on a concrete `investigating` storage. -/
theorem c5_classifier_forward_only_witness :
    (analyzeAndUpdateStatus { emptyStorage with status := some Status.investigating }
        "The root cause is a bad deploy." 9).status = some Status.identified
    ∧ (analyzeAndUpdateStatus { emptyStorage with status := some Status.investigating }
        "The root cause is a bad deploy." 9).timeline = some [aiAnalysisEvent 9] :=
  (c5_classifier_forward_only { emptyStorage with status := some Status.investigating }
      "The root cause is a bad deploy." 9).2.1 rfl (by decide) (by decide)

/-- Helper: a string append can be cancelled on the left. -/
lemma str_append_left_cancel {a b c : String} (h : a ++ b = a ++ c) : b = c := by
  have hd : a.data ++ b.data = a.data ++ c.data := by
    have := congrArg String.data h
    simpa using this
  exact congrArg String.mk (List.append_cancel_left hd)

/-- Helper: when `rootCause` is unset, the context prompt is the common prefix
followed by the common suffix. -/
lemma buildContextPrompt_decomp_unset (d : IncidentData) (now : Nat)
    (h0 : d.rootCause = none) :
    buildContextPrompt d now = ctxPre d ++ ctxPost d now := by
  unfold buildContextPrompt ctxPre ctxPost
  rcases hrem : d.remediationSteps with _ | steps <;>
    by_cases ha : d.affectedSystems.length > 0 <;>
    simp [h0, ha, hrem, jsTruthyStr, String.append_assoc,
      String.append_empty, String.empty_append] <;>
    by_cases hs : steps.length > 0 <;>
    simp [hs, String.append_assoc, String.append_empty, String.empty_append]

/-- Helper: when `rootCause` is set to a non-empty value, the context prompt is
the common prefix, the root-cause line, then the common suffix. -/
lemma buildContextPrompt_decomp_set (d : IncidentData) (rc : String) (now : Nat)
    (h0 : d.rootCause = some rc) (h1 : rc ≠ "") :
    buildContextPrompt d now
      = ctxPre d ++ ("\n- Known Root Cause: " ++ rc) ++ ctxPost d now := by
  unfold buildContextPrompt ctxPre ctxPost
  rcases hrem : d.remediationSteps with _ | steps <;>
    by_cases ha : d.affectedSystems.length > 0 <;>
    simp [h0, h1, ha, hrem, jsTruthyStr, String.append_assoc,
      String.append_empty, String.empty_append] <;>
    by_cases hs : steps.length > 0 <;>
    simp [hs, String.append_assoc, String.append_empty, String.empty_append]

/-- **C7** counterexample: `buildContextPrompt` reads the clock — on the very
same record, two calls whose times fall in different whole-minute incident ages
return different strings (the `Incident Duration` line differs), so the
function is not determined by the record alone. -/
theorem c7_build_depends_on_time :
    ¬ (buildContextPrompt c7Record 0 = buildContextPrompt c7Record 600000) := by
  intro h
  rw [buildContextPrompt_decomp_unset c7Record 0 rfl,
    buildContextPrompt_decomp_unset c7Record 600000 rfl] at h
  have h2 : ctxPost c7Record 0 = ctxPost c7Record 600000 := str_append_left_cancel h
  have h3 : ¬ (ctxPost c7Record 0 = ctxPost c7Record 600000) := by decide
  exact h3 h2

/-- **C7** (corrected): the context builder is a pure, deterministic function of
the record *and the current time*: calls on equal records whose whole-minute
incident ages agree return character-for-character identical strings (time
enters only through the duration line). -/
theorem c7_amended_deterministic_in_record_and_minute
    (d1 d2 : IncidentData) (n1 n2 : Nat) (hd : d1 = d2)
    (h : (n1 - d1.startTime) / 60000 = (n2 - d2.startTime) / 60000) :
    buildContextPrompt d1 n1 = buildContextPrompt d2 n2 := by
  subst hd
  unfold buildContextPrompt
  rw [h]

/-- Witness for **C7**: two calls on the same record within the same minute. -/
theorem c7_amended_deterministic_in_record_and_minute_witness :
    buildContextPrompt c7Record 1000 = buildContextPrompt c7Record 2000 :=
  c7_amended_deterministic_in_record_and_minute c7Record c7Record 1000 2000 rfl (by decide)

/-- **C8** (confirmed): two records equal in every field except `rootCause` (one
set to a non-empty value, the other unset) yield context strings that differ
exactly in the root-cause line — the common prefix `ctxPre` and common suffix
`ctxPost` are functions of the shared fields only and are identical for the
two calls. -/
theorem c8_rootCause_line_only_difference
    (r : IncidentData) (rc : String) (now : Nat)
    (h0 : r.rootCause = none) (h1 : rc ≠ "") :
    buildContextPrompt { r with rootCause := some rc } now
        = ctxPre r ++ ("\n- Known Root Cause: " ++ rc) ++ ctxPost r now
    ∧ buildContextPrompt r now = ctxPre r ++ ctxPost r now :=
  ⟨buildContextPrompt_decomp_set { r with rootCause := some rc } rc now rfl h1,
   buildContextPrompt_decomp_unset r now h0⟩

/-- Witness for **C8**: a concrete record pair differing only in `rootCause`. -/
theorem c8_rootCause_line_only_difference_witness :
    buildContextPrompt { c7Record with rootCause := some "bad deploy" } 0
        = ctxPre c7Record ++ ("\n- Known Root Cause: " ++ "bad deploy") ++ ctxPost c7Record 0
    ∧ buildContextPrompt c7Record 0 = ctxPre c7Record ++ ctxPost c7Record 0 :=
  c8_rootCause_line_only_difference c7Record "bad deploy" 0 rfl (by decide)

/-- **C2** (code_bug): `handleNewIncident` never creates a workflow instance —
the trigger is commented out in the source (`src/worker.ts` lines 167-169) —
yet on a valid request (severity `high`, description "Users reporting 504
errors") it answers 201 with the message "Incident created and analysis
workflow triggered".  With no workflow instance, the Staged Analysis Pipeline
never runs, so it never writes `rootCause`/`remediationSteps` for the new
incident. -/
theorem c2_createIncident_never_triggers_workflow :
    (∀ req now rand,
      ((handleNewIncident req now rand).2.filter WorkerEffect.isWorkflowCreate) = [])
    ∧ (handleNewIncident c2Request 1700000000000 "abc123xyz").1
        = (201, NewIncidentBody.created "INC-1700000000000-abc123xyz" "created"
            "Incident created and analysis workflow triggered") := by
  constructor
  · intro req now rand
    unfold handleNewIncident
    split
    · rfl
    · rfl
  · rfl

/-- **C9** (confirmed): the workflow posts the delayed-verification reminder iff
the severity is `critical`; when it does, exactly one such post occurs, it is
the final action of the trace, and it directly follows the single
`step.sleep("wait-for-mitigation", "5 minutes")`, which itself follows all
prior steps; and the trace is independent of the incident's status at the
moment the delay elapses — it fires even if the incident was already marked
resolved. -/
theorem c9_delayed_verification_iff_critical
    (params : WorkflowParams) (ai : String → String) (statusAtDelay : Status) :
    (countVerify (workflowRun params ai statusAtDelay)
        = if params.severity = Severity.critical then 1 else 0)
    ∧ (params.severity = Severity.critical →
        workflowRun params ai statusAtDelay
          = workflowCore params ai
              ++ [WorkflowAction.sleep "wait-for-mitigation" "5 minutes",
                  WorkflowAction.postMessage "verify-mitigation" verifyMitigationText]
        ∧ countVerify (workflowCore params ai) = 0
        ∧ countSleep (workflowCore params ai) = 0)
    ∧ (params.severity ≠ Severity.critical →
        workflowRun params ai statusAtDelay = workflowCore params ai
        ∧ countSleep (workflowRun params ai statusAtDelay) = 0)
    ∧ (∀ s2, workflowRun params ai s2 = workflowRun params ai statusAtDelay) := by
  obtain ⟨pid, plogs, pmetrics, psev, pdesc⟩ := params
  cases psev
  case critical =>
    exact ⟨rfl, fun _ => ⟨rfl, rfl, rfl⟩, fun h => absurd rfl h, fun s2 => rfl⟩
  case high =>
    refine ⟨rfl, ?_, fun _ => ⟨rfl, rfl⟩, fun s2 => rfl⟩
    intro h
    simp at h
  case medium =>
    refine ⟨rfl, ?_, fun _ => ⟨rfl, rfl⟩, fun s2 => rfl⟩
    intro h
    simp at h
  case low =>
    refine ⟨rfl, ?_, fun _ => ⟨rfl, rfl⟩, fun s2 => rfl⟩
    intro h
    simp at h

/-- Witness for **C9**: a critical incident whose status at the delay is already
`resolved` still gets the reminder as the final action after the sleep. -/
theorem c9_delayed_verification_iff_critical_witness :
    workflowRun c9Params c9Oracle Status.resolved
        = workflowCore c9Params c9Oracle
            ++ [WorkflowAction.sleep "wait-for-mitigation" "5 minutes",
                WorkflowAction.postMessage "verify-mitigation" verifyMitigationText]
    ∧ countVerify (workflowCore c9Params c9Oracle) = 0 :=
  ⟨((c9_delayed_verification_iff_critical c9Params c9Oracle Status.resolved).2.1 rfl).1,
   ((c9_delayed_verification_iff_critical c9Params c9Oracle Status.resolved).2.1 rfl).2.1⟩

/-- **C4** counterexample: on a record with `remediationSteps` unset, the JSON
report renders `"remediationSteps": []` — an empty array, not the explicit
`null` the claim demands for every unset optional field — and the timeline
event timestamps stay numeric epoch milliseconds rather than ISO-8601. -/
theorem c4_unset_remediation_renders_empty_array :
    ((jGet (jsonOfReport (generateJSONReport c4Incident [] 1700000300000)) "incident").bind
        (fun v => jGet v "remediationSteps")) = some (JValue.jarr [])
    ∧ ¬ (((jGet (jsonOfReport (generateJSONReport c4Incident [] 1700000300000)) "incident").bind
        (fun v => jGet v "remediationSteps")) = some JValue.jnull)
    ∧ (jGet (jsonOfReport (generateJSONReport c4Incident [] 1700000300000)) "timeline")
        = some (JValue.jarr [JValue.jobj
            [("timestamp", JValue.jnum 1700000000000),
             ("type", JValue.jstr "detection"),
             ("description", JValue.jstr "Incident detected and initialized")]]) := by
  refine ⟨rfl, ?_, rfl⟩
  intro h
  rw [show ((jGet (jsonOfReport (generateJSONReport c4Incident [] 1700000300000)) "incident").bind
      (fun v => jGet v "remediationSteps")) = some (JValue.jarr []) from rfl] at h
  exact JValue.noConfusion (Option.some.inj h)

/-- **C4** (corrected): the JSON report is inference-free and carries every
record field: unset `endTime` and `rootCause` render as explicit JSON `null`
and set ones as ISO-8601 strings, `startTime` renders as an ISO-8601 string,
and the conversation timestamps render as ISO-8601 strings or `null`; but an
unset `remediationSteps` renders as the empty array (not `null`, and
indistinguishable from a stored empty list), and timeline events pass through
verbatim with numeric timestamps. -/
theorem c4_amended_json_report_fields (d : IncidentData) (hist : List Message) (now : Nat) :
    (d.endTime = none →
      (jGet (jsonOfReport (generateJSONReport d hist now)) "incident").bind
          (fun v => jGet v "endTime") = some JValue.jnull)
    ∧ (d.rootCause = none →
      (jGet (jsonOfReport (generateJSONReport d hist now)) "incident").bind
          (fun v => jGet v "rootCause") = some JValue.jnull)
    ∧ (d.remediationSteps = none →
      (jGet (jsonOfReport (generateJSONReport d hist now)) "incident").bind
          (fun v => jGet v "remediationSteps") = some (JValue.jarr []))
    ∧ (∀ t, d.endTime = some t → ¬ (t = 0) →
        (generateJSONReport d hist now).incident.endTime = some (toISOString t))
    ∧ (∀ steps, d.remediationSteps = some steps →
        (generateJSONReport d hist now).incident.remediationSteps = steps)
    ∧ (generateJSONReport d hist now).incident.id = d.incidentId
    ∧ (generateJSONReport d hist now).incident.title = d.title
    ∧ (generateJSONReport d hist now).incident.severity = d.severity
    ∧ (generateJSONReport d hist now).incident.status = d.status
    ∧ (generateJSONReport d hist now).incident.description = d.description
    ∧ (generateJSONReport d hist now).incident.affectedSystems = d.affectedSystems
    ∧ (generateJSONReport d hist now).incident.startTime = toISOString d.startTime
    ∧ (generateJSONReport d hist now).timeline = d.timeline
    ∧ (generateJSONReport d hist now).conversation
        = hist.map (fun msg =>
            { role := msg.role, content := msg.content,
              timestamp := if jsTruthyNat msg.timestamp then
                  some (toISOString (msg.timestamp.getD 0)) else none }) := by
  refine ⟨?_, ?_, ?_, ?_, ?_, rfl, rfl, rfl, rfl, rfl, rfl, rfl, rfl, rfl⟩
  · intro h
    simp [generateJSONReport, jsonOfReport, jGet, jsTruthyNat, h]
  · intro h
    simp [generateJSONReport, jsonOfReport, jGet, jsTruthyStr, h]
  · intro h
    simp [generateJSONReport, jsonOfReport, jGet, h]
  · intro t h ht
    simp [generateJSONReport, jsTruthyNat, h, ht]
  · intro steps h
    simp [generateJSONReport, h]

/-- Witness for **C4**: the amended theorem at a concrete record with all three
optional fields unset. -/
theorem c4_amended_json_report_fields_witness :
    (jGet (jsonOfReport (generateJSONReport c4Incident [] 123)) "incident").bind
        (fun v => jGet v "endTime") = some JValue.jnull
    ∧ (jGet (jsonOfReport (generateJSONReport c4Incident [] 123)) "incident").bind
        (fun v => jGet v "remediationSteps") = some (JValue.jarr []) := by
  have h := c4_amended_json_report_fields c4Incident [] 123
  exact ⟨h.1 rfl, h.2.2.1 rfl⟩

end IncidentResponse
